import Mathlib

/-!
Verification of the Norn ESP32 sensor configuration component
(`src/arduino/norn_sensor/record_data/config.h`).

The source file is a constants header: every `#define` becomes a Lean
definition with the same name, the logical `DeviceConfig` record of the
spec is populated from those constants, and the "DeviceConfig provider"
is embedded as a state-passing component whose only operation is
"get configuration".  The validation step is not present in the source
(the spec recommends it as an addition), so it is modelled from the
spec's words.
-/

namespace Norn

/-- The `DeviceConfig` record: one logical field per `#define` in
`config.h`.  Text fields are `String` (including `backendPort`, which the
source gives as the text `"8000"`); numeric fields are `Nat`. -/
structure DeviceConfig where
  wifiSsid : String
  wifiPassword : String
  backendHost : String
  backendPort : String
  backendEndpoint : String
  sensorRxPin : Nat
  sensorTxPin : Nat
  sensorBaudRate : Nat
  fallInstallHeightCm : Nat
  fallTimeThresholdSec : Nat
  fallUnmannedTimeSec : Nat
  fallResidenceTimeSec : Nat
  fallSensitivity : Nat
  dataSendIntervalMs : Nat
  httpServerPort : Nat
  deriving Repr, DecidableEq

/-- `#define WIFI_SSID "YOUR_WIFI_SSID"` -/
def WIFI_SSID : String := "YOUR_WIFI_SSID"

/-- `#define WIFI_PASSWORD "YOUR_WIFI_PASSWORD"` -/
def WIFI_PASSWORD : String := "YOUR_WIFI_PASSWORD"

/-- `#define BACKEND_HOST "192.168.1.100"` -/
def BACKEND_HOST : String := "192.168.1.100"

/-- `#define BACKEND_PORT "8000"` (text in the source) -/
def BACKEND_PORT : String := "8000"

/-- `#define BACKEND_ENDPOINT "/api/v1/sensor/data"` -/
def BACKEND_ENDPOINT : String := "/api/v1/sensor/data"

/-- `#define SENSOR_RX_PIN 4` -/
def SENSOR_RX_PIN : Nat := 4

/-- `#define SENSOR_TX_PIN 5` -/
def SENSOR_TX_PIN : Nat := 5

/-- `#define SENSOR_BAUD_RATE 115200` -/
def SENSOR_BAUD_RATE : Nat := 115200

/-- `#define FALL_INSTALL_HEIGHT 270` (installation height in cm) -/
def FALL_INSTALL_HEIGHT : Nat := 270

/-- `#define FALL_TIME_THRESHOLD 5` (seconds) -/
def FALL_TIME_THRESHOLD : Nat := 5

/-- `#define FALL_UNMANNED_TIME 1` (seconds) -/
def FALL_UNMANNED_TIME : Nat := 1

/-- `#define FALL_RESIDENCE_TIME 200` (seconds) -/
def FALL_RESIDENCE_TIME : Nat := 200

/-- `#define FALL_SENSITIVITY 3` (fall sensitivity, 1-5) -/
def FALL_SENSITIVITY : Nat := 3

/-- `#define DATA_SEND_INTERVAL 1000` (milliseconds) -/
def DATA_SEND_INTERVAL : Nat := 1000

/-- `#define HTTP_SERVER_PORT 80` -/
def HTTP_SERVER_PORT : Nat := 80

/-- The baked-in configuration record: the `DeviceConfig` entity of the
spec populated with exactly the constants of `config.h`. -/
def deviceConfig : DeviceConfig :=
  { wifiSsid := WIFI_SSID
    wifiPassword := WIFI_PASSWORD
    backendHost := BACKEND_HOST
    backendPort := BACKEND_PORT
    backendEndpoint := BACKEND_ENDPOINT
    sensorRxPin := SENSOR_RX_PIN
    sensorTxPin := SENSOR_TX_PIN
    sensorBaudRate := SENSOR_BAUD_RATE
    fallInstallHeightCm := FALL_INSTALL_HEIGHT
    fallTimeThresholdSec := FALL_TIME_THRESHOLD
    fallUnmannedTimeSec := FALL_UNMANNED_TIME
    fallResidenceTimeSec := FALL_RESIDENCE_TIME
    fallSensitivity := FALL_SENSITIVITY
    dataSendIntervalMs := DATA_SEND_INTERVAL
    httpServerPort := HTTP_SERVER_PORT }

/-- State of the DeviceConfig provider: it holds the record populated at
initialization and nothing else. -/
structure ProviderState where
  config : DeviceConfig
  deriving Repr, DecidableEq

/-- The provider state as it exists after firmware start: populated with
the baked-in record. -/
def initialProvider : ProviderState := { config := deviceConfig }

/-- The one accessor operation of the provider: "get configuration"
returns the fully populated record.  It takes no input beyond the
component state and cannot fail. -/
def getConfiguration (s : ProviderState) : DeviceConfig := s.config

/-- The operations the component exposes.  The source exposes exactly
one: reading the configuration. -/
inductive Op where
  | getConfig
  deriving Repr, DecidableEq

/-- Small-step semantics of the provider: running an operation yields
the returned record and the successor state. -/
def execOp (s : ProviderState) : Op → DeviceConfig × ProviderState
  | Op.getConfig => (s.config, s)

/-- Running a sequence of operations, threading the state. -/
def execOps (s : ProviderState) : List Op → ProviderState
  | [] => s
  | op :: ops => execOps (execOp s op).2 ops

/-- Decimal reading of a text field: `some n` when the text is a
non-empty string of decimal digits denoting `n`, `none` otherwise.
Defined by structural recursion over the characters so that proofs can
evaluate it on concrete configurations. -/
def decimalNat? (s : String) : Option Nat :=
  if s.data.isEmpty || !(s.data.all Char.isDigit) then none
  else some (s.data.foldl (fun a c => a * 10 + (c.toNat - 48)) 0)

/-- A descriptive configuration error naming the offending field. -/
structure ConfigError where
  offendingField : String
  message : String
  deriving Repr, DecidableEq

/-- Modelled from the spec: the validation step is absent from the
source (`config.h` defines constants only); the spec recommends "a
validation step run once at startup that checks port ranges, non-empty
credentials, and sensitivity bounds, failing fast with a descriptive
error", checking "non-empty credentials, port values in [1,65535],
sensitivity in [1,5], positive durations" and that `backendEndpoint`
starts with `"/"`.  On success it returns the record unchanged. -/
def validateConfig (c : DeviceConfig) : Except ConfigError DeviceConfig :=
  if c.wifiSsid.isEmpty then
    Except.error { offendingField := "wifiSsid", message := "must be non-empty" }
  else if c.wifiPassword.isEmpty then
    Except.error { offendingField := "wifiPassword", message := "must be non-empty" }
  else if c.backendHost.isEmpty then
    Except.error { offendingField := "backendHost", message := "must be non-empty" }
  else
    match decimalNat? c.backendPort with
    | none =>
      Except.error { offendingField := "backendPort", message := "must be a decimal integer" }
    | some p =>
      if p < 1 || 65535 < p then
        Except.error { offendingField := "backendPort", message := "must be in [1,65535]" }
      else if c.backendEndpoint.data.head? ≠ some '/' then
        Except.error { offendingField := "backendEndpoint", message := "must start with /" }
      else if c.fallSensitivity < 1 || 5 < c.fallSensitivity then
        Except.error { offendingField := "fallSensitivity", message := "must be in [1,5]" }
      else if c.sensorBaudRate = 0 then
        Except.error { offendingField := "sensorBaudRate", message := "must be positive" }
      else if c.fallInstallHeightCm = 0 then
        Except.error { offendingField := "fallInstallHeightCm", message := "must be positive" }
      else if c.fallTimeThresholdSec = 0 then
        Except.error { offendingField := "fallTimeThresholdSec", message := "must be positive" }
      else if c.fallUnmannedTimeSec = 0 then
        Except.error { offendingField := "fallUnmannedTimeSec", message := "must be positive" }
      else if c.fallResidenceTimeSec = 0 then
        Except.error { offendingField := "fallResidenceTimeSec", message := "must be positive" }
      else if c.dataSendIntervalMs = 0 then
        Except.error { offendingField := "dataSendIntervalMs", message := "must be positive" }
      else if c.httpServerPort < 1 || 65535 < c.httpServerPort then
        Except.error { offendingField := "httpServerPort", message := "must be in [1,65535]" }
      else
        Except.ok c

/-- Modelled from the spec: initialization with validation enabled
either fails fast with a configuration error or produces the provider
populated with the validated record. -/
def initWithValidation (c : DeviceConfig) : Except ConfigError ProviderState :=
  match validateConfig c with
  | Except.error e => Except.error e
  | Except.ok c' => Except.ok { config := c' }

end Norn

namespace Norn

/-- Helper: every operation of the provider leaves the state unchanged,
so running any sequence of operations is the identity on the state. -/
theorem execOps_id (s : ProviderState) (ops : List Op) : execOps s ops = s := by
  induction ops with
  | nil => rfl
  | cons op ops ih => cases op; simpa [execOps, execOp] using ih

/-- C1: for every valid configuration record, "get configuration"
returns the record it was populated with, unchanged, and on the baked-in
provider every documented field reads back as the corresponding
baked-in constant of `config.h`. -/
theorem getConfiguration_roundtrip (c : DeviceConfig)
    (h : validateConfig c = Except.ok c) :
    getConfiguration { config := c } = c ∧
    (getConfiguration initialProvider).wifiSsid = WIFI_SSID ∧
    (getConfiguration initialProvider).wifiPassword = WIFI_PASSWORD ∧
    (getConfiguration initialProvider).backendHost = BACKEND_HOST ∧
    (getConfiguration initialProvider).backendPort = BACKEND_PORT ∧
    (getConfiguration initialProvider).backendEndpoint = BACKEND_ENDPOINT ∧
    (getConfiguration initialProvider).sensorRxPin = SENSOR_RX_PIN ∧
    (getConfiguration initialProvider).sensorTxPin = SENSOR_TX_PIN ∧
    (getConfiguration initialProvider).sensorBaudRate = SENSOR_BAUD_RATE ∧
    (getConfiguration initialProvider).fallInstallHeightCm = FALL_INSTALL_HEIGHT ∧
    (getConfiguration initialProvider).fallTimeThresholdSec = FALL_TIME_THRESHOLD ∧
    (getConfiguration initialProvider).fallUnmannedTimeSec = FALL_UNMANNED_TIME ∧
    (getConfiguration initialProvider).fallResidenceTimeSec = FALL_RESIDENCE_TIME ∧
    (getConfiguration initialProvider).fallSensitivity = FALL_SENSITIVITY ∧
    (getConfiguration initialProvider).dataSendIntervalMs = DATA_SEND_INTERVAL ∧
    (getConfiguration initialProvider).httpServerPort = HTTP_SERVER_PORT :=
  ⟨rfl, rfl, rfl, rfl, rfl, rfl, rfl, rfl, rfl, rfl, rfl, rfl, rfl, rfl, rfl, rfl⟩

/-- Witness for C1: the baked-in record passes validation, and the
round-trip theorem applies to it. -/
theorem getConfiguration_roundtrip_witness :
    validateConfig deviceConfig = Except.ok deviceConfig ∧
    getConfiguration { config := deviceConfig } = deviceConfig :=
  ⟨by rfl, (getConfiguration_roundtrip deviceConfig (by rfl)).1⟩

/-- C2: the record is immutable after initialization: no operation of
the component changes the state, so two reads of the configuration after
any two sequences of operations return equal records (hence equal values
for every field). -/
theorem config_immutable (s : ProviderState) (ops1 ops2 : List Op) :
    execOps s ops1 = s ∧
    getConfiguration (execOps s ops1) = getConfiguration (execOps s ops2) := by
  rw [execOps_id, execOps_id]
  exact ⟨rfl, rfl⟩

/-- C3: the "get configuration" accessor takes no input beyond the
component state, never fails and has no side effect: running it yields
exactly the fully populated stored record together with the unchanged
state, and a second call returns the same record as the first
(determinism). -/
theorem getConfiguration_pure_total (s : ProviderState) :
    execOp s Op.getConfig = (getConfiguration s, s) ∧
    (execOp (execOp s Op.getConfig).2 Op.getConfig).1 = (execOp s Op.getConfig).1 :=
  ⟨rfl, rfl⟩

/-- C4: with validation enabled, initializing from the baked-in record
with `fallSensitivity` set to 6 fails with a configuration error that
names `fallSensitivity` as the offending field, and produces no
provider state. -/
theorem sensitivity_six_rejected :
    ∃ e : ConfigError,
      initWithValidation { deviceConfig with fallSensitivity := 6 } = Except.error e ∧
      e.offendingField = "fallSensitivity" :=
  ⟨{ offendingField := "fallSensitivity", message := "must be in [1,5]" }, by rfl, rfl⟩

/-- C5: the baked-in `fallSensitivity` is an integer in the inclusive
range [1,5], and its value is 3. -/
theorem fallSensitivity_in_range :
    1 ≤ deviceConfig.fallSensitivity ∧ deviceConfig.fallSensitivity ≤ 5 ∧
    deviceConfig.fallSensitivity = 3 := by decide

/-- C6: both port fields lie in [1,65535]: `httpServerPort` directly,
and `backendPort` (text) under its decimal reading, which denotes 8000. -/
theorem ports_in_range :
    decimalNat? deviceConfig.backendPort = some 8000 ∧
    (∃ n : Nat, decimalNat? deviceConfig.backendPort = some n ∧ 1 ≤ n ∧ n ≤ 65535) ∧
    1 ≤ deviceConfig.httpServerPort ∧ deviceConfig.httpServerPort ≤ 65535 :=
  ⟨by decide, ⟨8000, by decide, by decide, by decide⟩, by decide, by decide⟩

/-- C7: the baked-in `backendEndpoint` is a URL path starting with the
character `/`: its first character is `/`. -/
theorem backendEndpoint_starts_with_slash :
    deviceConfig.backendEndpoint.data.head? = some '/' := by decide

/-- C8: every numeric tuning field of the baked-in record is a strictly
positive integer. -/
theorem tuning_fields_positive :
    0 < deviceConfig.sensorBaudRate ∧
    0 < deviceConfig.fallInstallHeightCm ∧
    0 < deviceConfig.fallTimeThresholdSec ∧
    0 < deviceConfig.fallUnmannedTimeSec ∧
    0 < deviceConfig.fallResidenceTimeSec ∧
    0 < deviceConfig.dataSendIntervalMs := by decide

/-- C9: the text fields `wifiSsid`, `wifiPassword` and `backendHost` of
the baked-in record are non-empty strings. -/
theorem text_fields_nonempty :
    deviceConfig.wifiSsid ≠ "" ∧
    deviceConfig.wifiPassword ≠ "" ∧
    deviceConfig.backendHost ≠ "" := by decide

/-- C10: the UART pin assignments are distinct and board-valid: the
receive pin (4) and transmit pin (5) are unequal and each lies in the
ESP32 GPIO identifier range [0,39], so the receive and transmit lines
never share a pin. -/
theorem uart_pins_distinct_and_valid :
    deviceConfig.sensorRxPin ≠ deviceConfig.sensorTxPin ∧
    deviceConfig.sensorRxPin ≤ 39 ∧
    deviceConfig.sensorTxPin ≤ 39 ∧
    deviceConfig.sensorRxPin = 4 ∧
    deviceConfig.sensorTxPin = 5 := by decide

end Norn
